import Mathlib

/-!
Verification development for the WeatherBot repository.

The Python scripts are shallowly embedded: every numeric value that the
scripts handle as a float is modelled as a rational number `ℚ`; Python
exceptions are modelled by `Option` results (`none` = an uncaught
exception); upstream HTTP/JSON responses are modelled as explicit record
values handed to the fetchers; timestamps are modelled by a day index
(`0` = today, `1` = tomorrow) together with the time of day in hours
(a rational, so that sub-hour instants and the second-based
interpolation ratio of the source are representable).
-/

namespace WeatherBot

/-- Characters treated as whitespace by Python's `str.strip()`
(the subset that can actually occur in this pipeline's strings). -/
def isWS (c : Char) : Bool :=
  c == ' ' || c == '\n' || c == '\t' || c == '\r'

/-- Model of Python `str.strip()` on a list of characters:
drop leading and trailing whitespace. -/
def pyStripL (l : List Char) : List Char :=
  ((l.dropWhile isWS).reverse.dropWhile isWS).reverse

/-- Model of Python `str.strip()`. -/
def pyStrip (s : String) : String :=
  String.mk (pyStripL s.data)

/-- Model of Python `str.lower()` (ASCII case folding, which is all the
cue phrases of the scripts need). -/
def pyLower (s : String) : String :=
  String.mk (s.data.map Char.toLower)

/-- Model of the Python substring test `needle in hay`. -/
def substrIn (needle hay : String) : Bool :=
  decide (needle.data <:+: hay.data)

/-- Model of Python slicing `s[:n]`. -/
def strTake (n : ℕ) (s : String) : String :=
  String.mk (s.data.take n)

/-- One normalized forecast sample `(timestamp, temperature °C, rain
probability %)`.  The timestamp `t` is the time of day in hours on
tomorrow's date (all samples produced by the fetchers live on
tomorrow). -/
structure Sample where
  t : ℚ
  temp : ℚ
  rain : ℚ
deriving DecidableEq, Repr

/-- `datetime.hour` of a sample living on tomorrow's date. -/
def pyHour (p : Sample) : ℤ := ⌊p.t⌋

/-- The fixed target-hour grid `[9, 12, 15, 18, 21, 0]` of
`weather_notify.py`. -/
def targetHours : List ℕ := [9, 12, 15, 18, 21, 0]

/-- Lexicographic comparison of the Python tuples
`(datetime, temp, rain)` used by `max(...)` / `min(...)` in
`get_openweather_forecast` (all tuples compared live on the same date,
so the datetime comparison is the time-of-day comparison). -/
def ltLex (p q : Sample) : Bool :=
  decide (p.t < q.t ∨ (p.t = q.t ∧ (p.temp < q.temp ∨ (p.temp = q.temp ∧ p.rain < q.rain))))

/-- Python `max(iterable, default=d)`: the default is returned only when
the iterable is empty; `max` keeps the first of equal maxima. -/
def pyMaxD : List Sample → Sample → Sample
  | [], d => d
  | x :: xs, _ => xs.foldl (fun a b => if ltLex a b then b else a) x

/-- Python `min(iterable, default=d)`. -/
def pyMinD : List Sample → Sample → Sample
  | [], d => d
  | x :: xs, _ => xs.foldl (fun a b => if ltLex b a then b else a) x

/-- `points[0]` (the fetcher only evaluates it on non-empty lists). -/
def headP (l : List Sample) : Sample := l.headD ⟨0, 0, 0⟩

/-- `points[-1]`. -/
def lastP (l : List Sample) : Sample := l.getLastD ⟨0, 0, 0⟩

/-- The loop body of `get_openweather_forecast` for one target hour `h`:
take the first point whose `datetime.hour` matches directly, otherwise
interpolate between the closest 3-hour points
(`before`/`after`, with `points[0]` / `points[-1]` as defaults), using
the elapsed-time ratio; the appended timestamp is always the target
time itself. -/
def interpolateAt (points : List Sample) (h : ℕ) : Sample :=
  match points.find? (fun p => pyHour p == (h : ℤ)) with
  | some pt => ⟨(h : ℚ), pt.temp, pt.rain⟩
  | none =>
    let T : ℚ := (h : ℚ)
    let before := pyMaxD (points.filter (fun p => decide (p.t ≤ T))) (headP points)
    let after := pyMinD (points.filter (fun p => decide (T ≤ p.t))) (lastP points)
    if before = after then ⟨T, before.temp, before.rain⟩
    else
      let ratio := (T - before.t) / (after.t - before.t)
      ⟨T, before.temp + (after.temp - before.temp) * ratio,
          before.rain + (after.rain - before.rain) * ratio⟩

/-- One item of the OpenWeather `list` array: its timestamp is split
into a day index (`day = 1` means tomorrow) and the time of day `t` in
hours; `pop?` models the optional `pop` key (`item.get("pop", 0)`). -/
structure OWMItem where
  day : ℤ
  t : ℚ
  temp : ℚ
  pop? : Option ℚ
deriving DecidableEq, Repr

/-- The OpenWeather JSON response: `list? = none` models a body without
the top-level `"list"` field. -/
structure OWMResp where
  list? : Option (List OWMItem)
deriving DecidableEq, Repr

/-- `get_openweather_forecast`: keep tomorrow's items as
`(dt, temp, pop*100)` points, return `[]` when the `"list"` field is
missing or no point falls on tomorrow, otherwise produce one sample per
target hour (direct match or interpolation). -/
def getOpenweatherForecast (resp : OWMResp) : List Sample :=
  match resp.list? with
  | none => []
  | some items =>
    let points := (items.filter (fun it => it.day == 1)).map
      (fun it => Sample.mk it.t it.temp ((it.pop?.getD 0) * 100))
    if points.isEmpty then []
    else targetHours.map (fun h => interpolateAt points h)

/-- The timestamp of every produced sample is the target time itself,
in both the direct-match and the interpolation branch. -/
theorem interpolateAt_t (points : List Sample) (h : ℕ) :
    (interpolateAt points h).t = (h : ℚ) := by
  unfold interpolateAt
  cases points.find? (fun p => pyHour p == (h : ℤ)) with
  | none =>
    simp only []
    split <;> rfl
  | some pt => rfl

/-- One hour entry of the WeatherAPI `forecast.forecastday[i].hour`
array: `day`/`hr` are the date index and hour parsed from the `time`
string (`day = 1` means tomorrow). -/
structure WAHour where
  day : ℤ
  hr : ℕ
  temp_c : ℚ
  chance_of_rain : ℚ
deriving DecidableEq, Repr

/-- One entry of `forecast.forecastday`. -/
structure WADay where
  hour : List WAHour
deriving DecidableEq, Repr

/-- The WeatherAPI JSON response: `forecast? = none` models a body
without the top-level `"forecast"` field. -/
structure WAResp where
  forecast? : Option (List WADay)
deriving DecidableEq, Repr

/-- `get_weatherapi_forecast`: return `[]` when the `"forecast"` field
is missing; otherwise read `forecastday[1]` (an out-of-range index is
an uncaught `IndexError`, modelled by `none`), keep tomorrow's hours
with `hour >= 9 or hour == 0`, and filter to the target hours. -/
def getWeatherapiForecast (resp : WAResp) : Option (List Sample) :=
  match resp.forecast? with
  | none => some []
  | some forecastday =>
    match forecastday[1]? with
    | none => none
    | some day =>
      let points := day.hour.filter
        (fun hh => decide (hh.day = 1 ∧ (9 ≤ hh.hr ∨ hh.hr = 0)))
      let filtered := points.filter (fun hh => decide (hh.hr ∈ targetHours))
      some (filtered.map (fun hh => Sample.mk (hh.hr : ℚ) hh.temp_c hh.chance_of_rain))

/-- A decimal digit character. -/
def digitChar : ℕ → Char
  | 0 => '0'
  | 1 => '1'
  | 2 => '2'
  | 3 => '3'
  | 4 => '4'
  | 5 => '5'
  | 6 => '6'
  | 7 => '7'
  | 8 => '8'
  | 9 => '9'
  | _ => '*'

/-- Decimal digits of a natural number, with explicit fuel so that the
recursion is structural. -/
def natCharsAux : ℕ → ℕ → List Char
  | 0, _ => []
  | fuel + 1, n =>
    if n < 10 then [digitChar n]
    else natCharsAux fuel (n / 10) ++ [digitChar (n % 10)]

/-- Decimal digits of a natural number. -/
def natChars (n : ℕ) : List Char := natCharsAux (n + 1) n

/-- Model of the Python float format `f"{q:.0f}"`.  Python formats the
binary float to the nearest integer; on the rational model this is
rounding to the nearest integer. -/
def fmtFixed0 (q : ℚ) : List Char :=
  let n : ℤ := round q
  (if n < 0 then ['-'] else []) ++ natChars n.natAbs

/-- Model of the Python float format `f"{q:.1f}"`: round to one decimal
place. -/
def fmtFixed1 (q : ℚ) : List Char :=
  let n : ℤ := round (q * 10)
  (if n < 0 then ['-'] else []) ++ natChars (n.natAbs / 10) ++
    ['.'] ++ natChars (n.natAbs % 10)

/-- `weather_to_emoji`: map condition keywords to an emoji by substring
tests on the lower-cased condition. -/
def weatherToEmoji (condition : String) : String :=
  let c := pyLower condition
  if substrIn "rain" c then "🌧️"
  else if substrIn "snow" c then "❄️"
  else if substrIn "cloud" c then "☁️"
  else if substrIn "clear" c then "☀️"
  else "🌤️"

/-- The uncertainty-flag text of `create_summary`. -/
def uncertaintyFlagText : String := "⚠️ Forecast uncertain"

/-- `create_summary`: derive a condition from the average rain, pick
the emoji, raise the uncertainty flag on `temp_range > 3 or
rain_range > 20`, and assemble the three-line summary, stripped of
leading/trailing whitespace. -/
def createSummary (cityName : String) (avgTemp avgRain highTemp lowTemp tempRange rainRange : ℚ) : String :=
  let condition : String :=
    if avgRain > 30 then "rain" else if avgRain > 5 then "cloud" else "clear"
  let emoji := weatherToEmoji condition
  let uncertaintyFlag : String :=
    if tempRange > 3 ∨ rainRange > 20 then uncertaintyFlagText else ""
  String.mk (pyStripL (cityName.data ++ ": ".data ++ emoji.data ++ " Avg ".data ++
    fmtFixed1 avgTemp ++ "°C (".data ++ fmtFixed0 tempRange ++ "°C range), ".data ++
    fmtFixed0 avgRain ++ "% rain (".data ++ fmtFixed0 rainRange ++ "% range)\nHigh ".data ++
    fmtFixed0 highTemp ++ "°C / Low ".data ++ fmtFixed0 lowTemp ++ "°C\n".data ++
    uncertaintyFlag.data))

/-- A Python value that is either an `(temp, rain)` tuple or the float
`nan` — the two possible results of `wa_hourly.get(h, np.nan)` in
`plot_comparison`. -/
inductive TupleOrNan
  | tup (temp rain : ℚ)
  | nanF
deriving DecidableEq, Repr

/-- A Python float that may be `nan`. -/
inductive PyFloat
  | num (q : ℚ)
  | nan
deriving DecidableEq, Repr

/-- Python truthiness of the values above: a 2-tuple is non-empty and
therefore truthy, and `bool(nan)` is also `True` (`nan != 0.0`). -/
def pyTruthy : TupleOrNan → Bool
  | .tup _ _ => true
  | .nanF => true

/-- Python subscript `v[0]`: defined on the tuple, an uncaught
`TypeError` (`none`) on the float `nan`. -/
def pySub0 : TupleOrNan → Option PyFloat
  | .tup temp _ => some (.num temp)
  | .nanF => none

/-- Python subscript `v[1]`. -/
def pySub1 : TupleOrNan → Option PyFloat
  | .tup _ rain => some (.num rain)
  | .nanF => none

/-- The hourly x-grid `np.arange(9, 25)` of `plot_comparison`. -/
def chartHours : List ℕ :=
  [9, 10, 11, 12, 13, 14, 15, 16, 17, 18, 19, 20, 21, 22, 23, 24]

/-- The dict `wa_hourly = {t.hour: (temp, rain) for ...}`: the last
entry for a given hour wins. -/
def waHourlyGet (wa : List Sample) (h : ℕ) : TupleOrNan :=
  match wa.reverse.find? (fun s => pyHour s == (h : ℤ)) with
  | some s => .tup s.temp s.rain
  | none => .nanF

/-- `aligned_temps_wa = [wa_hourly.get(h, np.nan) for h in target_hours]`. -/
def alignedVals (wa : List Sample) : List TupleOrNan :=
  chartHours.map (fun h => waHourlyGet wa h)

/-- `temps_wa_aligned = [v[0] if v else np.nan for v in aligned_temps_wa]`:
the `else` branch (`np.nan`) is dead because both possible values of
`v` are truthy, so a missing hour reaches `v[0]` on a float and raises. -/
def tempsWaAligned (wa : List Sample) : Option (List PyFloat) :=
  (alignedVals wa).mapM (fun v => if pyTruthy v then pySub0 v else some .nan)

/-- `rains_wa_aligned = [v[1] if v else np.nan for v in aligned_temps_wa]`. -/
def rainsWaAligned (wa : List Sample) : Option (List PyFloat) :=
  (alignedVals wa).mapM (fun v => if pyTruthy v then pySub1 v else some .nan)

/-- `plot_comparison`, modelled up to the external drawing library: the
WeatherAPI alignment lists are computed (an uncaught exception there is
`none`), then the chart is saved under the deterministic name
`city.lower() + "_comparison.png"` (overwriting any existing file) and
that name is returned. -/
def plotComparison (city : String) (owmData waData : List Sample) : Option String :=
  match tempsWaAligned waData, rainsWaAligned waData with
  | some _, some _ => some (pyLower city ++ "_comparison.png")
  | _, _ => none

/-- The consensus statistics computed inline in `main`. -/
structure Stats where
  avg_temp : ℚ
  avg_rain : ℚ
  high_temp : ℚ
  low_temp : ℚ
  temp_range : ℚ
  rain_range : ℚ
deriving DecidableEq, Repr

/-- Python `max(list)` over rationals (only evaluated on non-empty
lists in `main`). -/
def listMax : List ℚ → ℚ
  | [] => 0
  | x :: xs => xs.foldl max x

/-- Python `min(list)`. -/
def listMin : List ℚ → ℚ
  | [] => 0
  | x :: xs => xs.foldl min x

/-- The aggregation block of `main` (lines 258–274): per-source mean
temperatures and rain probabilities, averaged-of-averages, union
high/low, and the absolute per-source-mean differences. -/
def statsOf (owmData waData : List Sample) : Stats :=
  let tempsOwm := owmData.map (fun s => s.temp)
  let tempsWa := waData.map (fun s => s.temp)
  let rainOwm := owmData.map (fun s => s.rain)
  let rainWa := waData.map (fun s => s.rain)
  { avg_temp := (tempsOwm.sum / tempsOwm.length + tempsWa.sum / tempsWa.length) / 2
    avg_rain := (rainOwm.sum / rainOwm.length + rainWa.sum / rainWa.length) / 2
    high_temp := max (listMax tempsOwm) (listMax tempsWa)
    low_temp := min (listMin tempsOwm) (listMin tempsWa)
    temp_range := |tempsOwm.sum / tempsOwm.length - tempsWa.sum / tempsWa.length|
    rain_range := |rainOwm.sum / rainOwm.length - rainWa.sum / rainWa.length| }

/-- The series handed to the aggregation block of `main`: lines 258–274
read `owm_data` and `wa_data` directly, so the fetched sequences reach
the aggregation unchanged (there is no reconciliation step between the
fetch and the aggregation). -/
def aggregationInput (owmData waData : List Sample) : List Sample × List Sample :=
  (owmData, waData)

/-- An observable side effect of one loop iteration of `main`: a
Pushover notification with an optional image attachment. -/
inductive Action
  | notify (msg : String) (attachment : Option String)
deriving DecidableEq, Repr

/-- One iteration of the city loop of `main`, given the two fetch
results: an empty result from either source short-circuits to the
unavailable notification; otherwise the stats, summary, chart and
normal notification are produced.  `none` models an uncaught exception
in the iteration. -/
def processCity (city : String) (owmData waData : List Sample) : Option (List Action) :=
  if owmData = [] ∨ waData = [] then
    some [.notify (city ++ ": Weather data unavailable.") none]
  else
    let st := statsOf owmData waData
    let message := createSummary city st.avg_temp st.avg_rain st.high_temp
      st.low_temp st.temp_range st.rain_range
    match plotComparison city owmData waData with
    | none => none
    | some graphFile => some [.notify message (some graphFile)]

/-- The city loop of `main`, over the city names and the two fetchers;
an uncaught exception (`none`) aborts the remaining cities. -/
def runCities (fetchA fetchB : String → List Sample) : List String → Option (List Action)
  | [] => some []
  | c :: rest =>
    match processCity c (fetchA c) (fetchB c) with
    | none => none
    | some acts =>
      match runCities fetchA fetchB rest with
      | none => none
      | some actsRest => some (acts ++ actsRest)

/-- The outcome of the page fetch and block lookup inside a scraper's
`try` block: `success (some b)` — the page was retrieved and the
expected block was found with text `b`; `success none` — the page was
retrieved but the block lookup returned `None`; `failure e` — the
fetch/parse raised an exception rendering as `e`. -/
inductive FetchOutcome
  | success (block? : Option String)
  | failure (err : String)
deriving DecidableEq, Repr

/-- `scrape_forecast_yr` of `compare_and_analyze.py`: unsupported
cities return a fixed string before any network call; otherwise the
found block's text is stripped and truncated to 1000 characters, a
missing block yields a fixed string, and any exception is caught and
rendered into the returned string. -/
def scrapeForecastYr (city : String) (outcome : FetchOutcome) : String :=
  if pyLower city = "brussels" ∨ pyLower city = "paris" then
    match outcome with
    | .success (some block) => strTake 1000 (pyStrip block)
    | .success none => "Could not extract data from YR.no"
    | .failure e => "Error scraping YR.no: " ++ e
  else "Unsupported city"

/-- `scrape_forecast_knmi`: Brussels and Paris return the fixed
"not covered" string before any network call; other cities fetch the
KNMI page with the same truncate/placeholder/caught-exception shape. -/
def scrapeForecastKnmi (city : String) (outcome : FetchOutcome) : String :=
  if pyLower city = "brussels" ∨ pyLower city = "paris" then
    "KNMI does not cover " ++ city ++ "."
  else
    match outcome with
    | .success (some block) => strTake 1000 (pyStrip block)
    | .success none => "Could not extract data from KNMI"
    | .failure e => "Error scraping KNMI: " ++ e

/-- The divergent cue phrases of `analyze_with_chatgpt` (matched
against the lower-cased comment). -/
def cuesDivergent : List String :=
  ["big mismatch", "major difference", "does not match",
   "conflict between sources", "no agreement"]

/-- The partial-alignment cue phrases. -/
def cuesPartial : List String :=
  ["slightly off", "some sources", "partial alignment", "adds nuance",
   "not all sources agree", "mixed picture", "one source differs", "outlier"]

/-- The full-alignment cue phrases. -/
def cuesFull : List String :=
  ["all sources agree", "consistent across", "align well", "in line",
   "match", "fully agree", "no notable difference"]

/-- `any(phrase in text for phrase in cues)`. -/
def anyCue (cues : List String) (text : String) : Bool :=
  cues.any (fun p => substrIn p text)

/-- The divergent test of `analyze_with_chatgpt`: the warning emoji is
looked for in the original comment (lower-casing does not change it),
the phrases in the lower-cased comment. -/
def divergentCue (comment : String) : Bool :=
  substrIn "⚠️" comment || anyCue cuesDivergent (pyLower comment)

/-- The partial test. -/
def partialCue (comment : String) : Bool :=
  anyCue cuesPartial (pyLower comment)

/-- The full test. -/
def fullCue (comment : String) : Bool :=
  anyCue cuesFull (pyLower comment)

/-- The alignment classification of `analyze_with_chatgpt` applied to
the free-text comment returned by the LLM: an ordered
first-match-wins scan of the cue groups. -/
def classifyAlignment (comment : String) : String :=
  if divergentCue comment then "divergent"
  else if partialCue comment then "partial"
  else if fullCue comment then "full"
  else "unknown"

/-! ### Spec-side definitions (used for refinement comparisons) -/

/-- Modelled from the spec: the arithmetic mean of a list of numbers. -/
def meanQ (l : List ℚ) : ℚ := l.sum / l.length

/-- Modelled from the spec: the pooled average over all samples of both
sources together (the aggregation the spec says is *not* used). -/
def pooledMean (l : List ℚ) : ℚ := l.sum / l.length

/-! ### Claims -/

/-- C1: for every city processed with two non-empty fetched sample
sequences, the consensus `avg_temp` is the mean of the two per-source
mean temperatures and `avg_rain` is the analogous mean of the
per-source rain-probability means; and this is not the pooled average
over all samples: there are non-empty inputs on which the two
disagree. -/
theorem c1_avg_of_per_source_means (owmData waData : List Sample)
    (h1 : owmData ≠ []) (h2 : waData ≠ []) :
    (statsOf owmData waData).avg_temp =
      (meanQ (owmData.map (fun s => s.temp)) + meanQ (waData.map (fun s => s.temp))) / 2 ∧
    (statsOf owmData waData).avg_rain =
      (meanQ (owmData.map (fun s => s.rain)) + meanQ (waData.map (fun s => s.rain))) / 2 ∧
    ∃ a b : List Sample, a ≠ [] ∧ b ≠ [] ∧
      (statsOf a b).avg_temp ≠ pooledMean ((a ++ b).map (fun s => s.temp)) := by
  refine ⟨rfl, rfl, [⟨9, 0, 0⟩], [⟨9, 1, 0⟩, ⟨12, 1, 0⟩, ⟨15, 1, 0⟩], by simp, by simp, ?_⟩
  norm_num [statsOf, pooledMean]

/-- C1 witness at a concrete non-empty input. -/
theorem c1_avg_of_per_source_means_witness :
    (statsOf [⟨9, 10, 10⟩] [⟨9, 12, 20⟩, ⟨12, 14, 40⟩]).avg_temp =
      (meanQ (([⟨9, 10, 10⟩] : List Sample).map (fun s => s.temp)) +
        meanQ (([⟨9, 12, 20⟩, ⟨12, 14, 40⟩] : List Sample).map (fun s => s.temp))) / 2 ∧
    (statsOf [⟨9, 10, 10⟩] [⟨9, 12, 20⟩, ⟨12, 14, 40⟩]).avg_rain =
      (meanQ (([⟨9, 10, 10⟩] : List Sample).map (fun s => s.rain)) +
        meanQ (([⟨9, 12, 20⟩, ⟨12, 14, 40⟩] : List Sample).map (fun s => s.rain))) / 2 ∧
    ∃ a b : List Sample, a ≠ [] ∧ b ≠ [] ∧
      (statsOf a b).avg_temp ≠ pooledMean ((a ++ b).map (fun s => s.temp)) :=
  c1_avg_of_per_source_means [⟨9, 10, 10⟩] [⟨9, 12, 20⟩, ⟨12, 14, 40⟩] (by simp) (by simp)

/-- C8: a fetcher whose upstream response lacks the expected top-level
field (`"list"` for OpenWeather, `"forecast"` for WeatherAPI) returns
the empty sequence instead of raising. -/
theorem c8_missing_field_empty (ra : OWMResp) (rb : WAResp) :
    (ra.list? = none → getOpenweatherForecast ra = []) ∧
    (rb.forecast? = none → getWeatherapiForecast rb = some []) := by
  constructor
  · intro h
    unfold getOpenweatherForecast
    rw [h]
  · intro h
    unfold getWeatherapiForecast
    rw [h]

/-- C8 witness at concrete field-less responses. -/
theorem c8_missing_field_empty_witness :
    getOpenweatherForecast ⟨none⟩ = [] ∧ getWeatherapiForecast ⟨none⟩ = some [] :=
  ⟨(c8_missing_field_empty ⟨none⟩ ⟨none⟩).1 rfl, (c8_missing_field_empty ⟨none⟩ ⟨none⟩).2 rfl⟩

/-- C10: the OpenWeather fetcher returns either the empty sequence or
exactly 6 samples, one per target hour in the order
`[9, 12, 15, 18, 21, 0]`, each timestamped at tomorrow's date with
that hour. -/
theorem c10_owm_six_samples (resp : OWMResp) :
    getOpenweatherForecast resp = [] ∨
      ((getOpenweatherForecast resp).length = 6 ∧
        (getOpenweatherForecast resp).map (fun s => s.t) =
          [(9 : ℚ), 12, 15, 18, 21, 0]) := by
  unfold getOpenweatherForecast
  cases resp.list? with
  | none => exact Or.inl rfl
  | some items =>
    simp only []
    split
    · exact Or.inl rfl
    · refine Or.inr ⟨by simp [targetHours], ?_⟩
      simp [targetHours, interpolateAt_t]

/-- C7: a city whose fetches return an empty sequence from either
source gets exactly the `"<city>: Weather data unavailable."`
notification — no aggregation, summary, chart or normal notification —
and the loop continues with the remaining cities unchanged. -/
theorem c7_unavailable_short_circuit (fetchA fetchB : String → List Sample)
    (city : String) (rest : List String)
    (h : fetchA city = [] ∨ fetchB city = []) :
    processCity city (fetchA city) (fetchB city) =
      some [.notify (city ++ ": Weather data unavailable.") none] ∧
    runCities fetchA fetchB (city :: rest) =
      (runCities fetchA fetchB rest).map
        (fun acts => Action.notify (city ++ ": Weather data unavailable.") none :: acts) := by
  have hp : processCity city (fetchA city) (fetchB city) =
      some [.notify (city ++ ": Weather data unavailable.") none] := by
    unfold processCity
    rw [if_pos h]
  refine ⟨hp, ?_⟩
  cases hr : runCities fetchA fetchB rest with
  | none => simp [runCities, hp, hr]
  | some acts => simp [runCities, hp, hr]

/-- C7 witness: a concrete city with an empty OpenWeather result. -/
theorem c7_unavailable_short_circuit_witness :
    processCity "Brussels" [] [⟨9, 1, 0⟩] =
      some [.notify ("Brussels" ++ ": Weather data unavailable.") none] ∧
    runCities (fun _ => []) (fun _ => [⟨9, 1, 0⟩]) ("Brussels" :: ["Paris"]) =
      (runCities (fun _ => []) (fun _ => [⟨9, 1, 0⟩]) ["Paris"]).map
        (fun acts => Action.notify ("Brussels" ++ ": Weather data unavailable.") none :: acts) :=
  c7_unavailable_short_circuit (fun _ => []) (fun _ => [⟨9, 1, 0⟩]) "Brussels" ["Paris"]
    (Or.inl rfl)

/-- C6: the alignment classifier always returns one of the four tags,
and it scans the cue groups with first-match-wins precedence:
divergent cues first, then partial, then full, else unknown. -/
theorem c6_classifier_precedence (comment : String) :
    (classifyAlignment comment = "divergent" ∨ classifyAlignment comment = "partial" ∨
      classifyAlignment comment = "full" ∨ classifyAlignment comment = "unknown") ∧
    (classifyAlignment comment = "divergent" ↔ divergentCue comment = true) ∧
    (classifyAlignment comment = "partial" ↔
      (divergentCue comment = false ∧ partialCue comment = true)) ∧
    (classifyAlignment comment = "full" ↔
      (divergentCue comment = false ∧ partialCue comment = false ∧
        fullCue comment = true)) ∧
    (classifyAlignment comment = "unknown" ↔
      (divergentCue comment = false ∧ partialCue comment = false ∧
        fullCue comment = false)) := by
  cases hd : divergentCue comment <;> cases hp : partialCue comment <;>
    cases hf : fullCue comment <;>
      simp [classifyAlignment, hd, hp, hf]

/-- A fetched OpenWeather series that does carry an hour-0 sample. -/
def owmWithMidnight : List Sample := [⟨9, 10, 0⟩, ⟨0, 5, 0⟩]

/-- A fetched WeatherAPI series without an hour-0 sample. -/
def waNoMidnight : List Sample := [⟨9, 11, 0⟩]

/-- C3 counterexample: with exactly one source carrying an hour-0
sample, the series reaching the aggregation block are the fetched ones
unchanged — the other source's series still has no hour-0 entry and the
lengths differ, so no midnight reconciliation takes place. -/
theorem c3_counterexample_no_midnight_copy :
    (∃ s ∈ (aggregationInput owmWithMidnight waNoMidnight).1, pyHour s = 0) ∧
    (∀ s ∈ (aggregationInput owmWithMidnight waNoMidnight).2, pyHour s ≠ 0) ∧
    (aggregationInput owmWithMidnight waNoMidnight).2.length ≠
      (aggregationInput owmWithMidnight waNoMidnight).1.length := by
  refine ⟨⟨⟨0, 5, 0⟩, by simp [aggregationInput, owmWithMidnight], by norm_num [pyHour]⟩, ?_, by simp [aggregationInput, owmWithMidnight, waNoMidnight]⟩
  intro s hs
  simp [aggregationInput, waNoMidnight] at hs
  subst hs
  norm_num [pyHour]

/-- C3 (amended): `main` performs no midnight reconciliation — the
fetched sequences reach the aggregation unchanged, so when exactly one
source has an hour-0 sample the other series still lacks it and keeps
its fetched length, and the statistics are computed from exactly these
unmodified series. -/
theorem c3_no_reconciliation (owmData waData : List Sample)
    (hA : ∃ s ∈ owmData, pyHour s = 0) (hB : ∀ s ∈ waData, pyHour s ≠ 0) :
    aggregationInput owmData waData = (owmData, waData) ∧
    (∀ s ∈ (aggregationInput owmData waData).2, pyHour s ≠ 0) ∧
    (aggregationInput owmData waData).2.length = waData.length ∧
    statsOf (aggregationInput owmData waData).1 (aggregationInput owmData waData).2 =
      statsOf owmData waData :=
  ⟨rfl, hB, rfl, rfl⟩

/-- C3 witness at the concrete mismatched series. -/
theorem c3_no_reconciliation_witness :
    aggregationInput owmWithMidnight waNoMidnight = (owmWithMidnight, waNoMidnight) ∧
    (∀ s ∈ (aggregationInput owmWithMidnight waNoMidnight).2, pyHour s ≠ 0) ∧
    (aggregationInput owmWithMidnight waNoMidnight).2.length = waNoMidnight.length ∧
    statsOf (aggregationInput owmWithMidnight waNoMidnight).1
        (aggregationInput owmWithMidnight waNoMidnight).2 =
      statsOf owmWithMidnight waNoMidnight :=
  c3_no_reconciliation owmWithMidnight waNoMidnight
    ⟨⟨0, 5, 0⟩, by simp [owmWithMidnight], by norm_num [pyHour]⟩
    (by
      intro s hs
      simp [waNoMidnight] at hs
      subst hs
      norm_num [pyHour])

/-- The spec's end-to-end OpenWeather series: five samples covering the
daytime target hours `[9, 12, 15, 18, 21]`. -/
def owmFiveSamples : List Sample :=
  [⟨9, 10, 10⟩, ⟨12, 14, 5⟩, ⟨15, 16, 0⟩, ⟨18, 13, 20⟩, ⟨21, 9, 40⟩]

/-- The matching five-sample WeatherAPI series. -/
def waFiveSamples : List Sample :=
  [⟨9, 11, 15⟩, ⟨12, 15, 10⟩, ⟨15, 17, 5⟩, ⟨18, 14, 25⟩, ⟨21, 10, 45⟩]

/-- C4: evaluating the chart renderer at the claimed five-sample input
shows the failure: hour 10 is absent from the WeatherAPI series, so
`wa_hourly.get(10, np.nan)` yields `nan`, which is truthy, and
`v[0]` on the float raises `TypeError` — the renderer does not reach
`savefig` and no `brussels_comparison.png` is produced. -/
theorem c4_renderer_raises_on_five_samples :
    plotComparison "Brussels" owmFiveSamples waFiveSamples = none := by
  have h10 : waHourlyGet waFiveSamples 10 = .nanF := by
    simp [waHourlyGet, waFiveSamples, pyHour, List.find?]
  have h9 : waHourlyGet waFiveSamples 9 = .tup 11 15 := by
    simp [waHourlyGet, waFiveSamples, pyHour, List.find?]
  have hT : tempsWaAligned waFiveSamples = none := by
    show (alignedVals waFiveSamples).mapM
      (fun v => if pyTruthy v then pySub0 v else some .nan) = none
    rw [show alignedVals waFiveSamples =
        waHourlyGet waFiveSamples 9 :: waHourlyGet waFiveSamples 10 ::
          (chartHours.drop 2).map (fun h => waHourlyGet waFiveSamples h) from rfl]
    rw [h9, h10]
    rfl
  unfold plotComparison
  rw [hT]

/-- A truncation to 1000 characters has length at most 1000. -/
theorem strTake_length_le (n : ℕ) (s : String) : (strTake n s).length ≤ n := by
  show (s.data.take n).length ≤ n
  rw [List.length_take]
  exact min_le_left _ _

/-- C9 (amended): each cross-checker scraper always returns a string —
all failures of the underlying fetch arrive as values, never as
exceptions — and the result is one of: at most 1000 characters of the
stripped block text on success, a fixed "unsupported" / "not covered" /
"could not extract" placeholder, or, on a fetch failure, an error
string that embeds the exception text (and is therefore not fixed). -/
theorem c9_scraper_results (city : String) (o : FetchOutcome) :
    ((∃ b, o = .success (some b) ∧
        scrapeForecastYr city o = strTake 1000 (pyStrip b) ∧
        (scrapeForecastYr city o).length ≤ 1000) ∨
      scrapeForecastYr city o = "Unsupported city" ∨
      scrapeForecastYr city o = "Could not extract data from YR.no" ∨
      (∃ e, o = .failure e ∧
        scrapeForecastYr city o = "Error scraping YR.no: " ++ e)) ∧
    ((∃ b, o = .success (some b) ∧
        scrapeForecastKnmi city o = strTake 1000 (pyStrip b) ∧
        (scrapeForecastKnmi city o).length ≤ 1000) ∨
      scrapeForecastKnmi city o = "KNMI does not cover " ++ city ++ "." ∨
      scrapeForecastKnmi city o = "Could not extract data from KNMI" ∨
      (∃ e, o = .failure e ∧
        scrapeForecastKnmi city o = "Error scraping KNMI: " ++ e)) := by
  by_cases hsup : pyLower city = "brussels" ∨ pyLower city = "paris"
  · constructor
    · cases o with
      | success block? =>
        cases block? with
        | none => exact Or.inr (Or.inr (Or.inl (by simp [scrapeForecastYr, hsup])))
        | some b =>
          exact Or.inl ⟨b, rfl, by simp [scrapeForecastYr, hsup],
            by simp [scrapeForecastYr, hsup, strTake_length_le]⟩
      | failure e =>
        exact Or.inr (Or.inr (Or.inr ⟨e, rfl, by simp [scrapeForecastKnmi, scrapeForecastYr, hsup]⟩))
    · exact Or.inr (Or.inl (by simp [scrapeForecastKnmi, hsup]))
  · constructor
    · exact Or.inr (Or.inl (by simp [scrapeForecastYr, hsup]))
    · cases o with
      | success block? =>
        cases block? with
        | none => exact Or.inr (Or.inr (Or.inl (by simp [scrapeForecastKnmi, hsup])))
        | some b =>
          exact Or.inl ⟨b, rfl, by simp [scrapeForecastKnmi, hsup],
            by simp [scrapeForecastKnmi, hsup, strTake_length_le]⟩
      | failure e =>
        exact Or.inr (Or.inr (Or.inr ⟨e, rfl, by simp [scrapeForecastKnmi, hsup]⟩))

/-- C9 counterexample: on a network failure the returned string embeds
the exception text — two different failures return two different
strings, and neither is one of the fixed "could not extract" /
"unsupported" placeholders, so the failure result is not a fixed
placeholder string. -/
theorem c9_counterexample_error_string_not_fixed :
    scrapeForecastYr "Brussels" (.failure "timeout") = "Error scraping YR.no: timeout" ∧
    scrapeForecastYr "Brussels" (.failure "timeout") ≠
      scrapeForecastYr "Brussels" (.failure "connection refused") ∧
    scrapeForecastYr "Brussels" (.failure "timeout") ≠
      "Could not extract data from YR.no" ∧
    scrapeForecastYr "Brussels" (.failure "timeout") ≠ "Unsupported city" := by
  refine ⟨?_, ?_, ?_, ?_⟩ <;> decide

/-! ### Character-level lemmas for the uncertainty flag -/

/-- Digit characters are never the warning character. -/
theorem digitChar_ne_warn (d : ℕ) : digitChar d ≠ '⚠' := by
  unfold digitChar
  split <;> decide

/-- The decimal digits of a natural number never contain the warning
character. -/
theorem warn_notin_natCharsAux (fuel n : ℕ) : '⚠' ∉ natCharsAux fuel n := by
  induction fuel generalizing n with
  | zero => simp [natCharsAux]
  | succ fuel ih =>
    unfold natCharsAux
    split
    · simp
      exact fun h => digitChar_ne_warn n h.symm
    · simp
      refine ⟨ih _, fun h => digitChar_ne_warn _ h.symm⟩

/-- `natChars` never contains the warning character. -/
theorem warn_notin_natChars (n : ℕ) : '⚠' ∉ natChars n :=
  warn_notin_natCharsAux _ _

/-- A `.0f`-formatted number never contains the warning character. -/
theorem warn_notin_fmtFixed0 (q : ℚ) : '⚠' ∉ fmtFixed0 q := by
  unfold fmtFixed0
  simp only [List.mem_append]
  rintro (h | h)
  · revert h
    split <;> simp
  · exact warn_notin_natChars _ h

/-- A `.1f`-formatted number never contains the warning character. -/
theorem warn_notin_fmtFixed1 (q : ℚ) : '⚠' ∉ fmtFixed1 q := by
  unfold fmtFixed1
  simp only [List.mem_append]
  rintro (((h | h) | h) | h)
  · revert h
    split <;> simp
  · exact warn_notin_natChars _ h
  · exact absurd h (by decide)
  · exact warn_notin_natChars _ h

/-- No condition emoji contains the warning character. -/
theorem warn_notin_weatherToEmoji (condition : String) :
    '⚠' ∉ (weatherToEmoji condition).data := by
  unfold weatherToEmoji
  dsimp only
  split_ifs <;> decide

/-- Membership is preserved from the stripped list back to the
original. -/
theorem mem_of_mem_pyStripL (c : Char) (l : List Char) (h : c ∈ pyStripL l) : c ∈ l := by
  unfold pyStripL at h
  rw [List.mem_reverse] at h
  have h2 := (List.dropWhile_sublist isWS).mem h
  rw [List.mem_reverse] at h2
  exact (List.dropWhile_sublist isWS).mem h2

/-- The head of a non-empty infix occurs in the host list. -/
theorem head_mem_of_infix (c : Char) (cs l : List Char) (h : (c :: cs) <:+: l) : c ∈ l := by
  obtain ⟨s, t, rfl⟩ := h
  simp

/-- `dropWhile` keeps a suffix whose head fails the predicate. -/
theorem dropWhile_append_keeps_suffix (p : Char → Bool) (A : List Char) (c : Char)
    (cs : List Char) (hc : p c = false) :
    ∃ B, (A ++ c :: cs).dropWhile p = B ++ c :: cs := by
  induction A with
  | nil =>
    refine ⟨[], ?_⟩
    simp [List.dropWhile_cons, hc]
  | cons x A ih =>
    by_cases hx : p x
    · obtain ⟨B, hB⟩ := ih
      refine ⟨B, ?_⟩
      simp [List.dropWhile_cons, hx, hB]
    · refine ⟨x :: A, ?_⟩
      simp [List.dropWhile_cons, hx]

/-- Stripping a list that ends with the uncertainty-flag text keeps the
flag text as a suffix (its first and last characters are not
whitespace), so the flag remains an infix of the stripped summary. -/
theorem flag_infix_pyStripL (A : List Char) :
    uncertaintyFlagText.data <:+: pyStripL (A ++ uncertaintyFlagText.data) := by
  have hfl : uncertaintyFlagText.data = '⚠' :: "️ Forecast uncertain".data := rfl
  rw [hfl]
  obtain ⟨B, hB⟩ := dropWhile_append_keeps_suffix isWS A '⚠'
    ("️ Forecast uncertain".data) (by decide)
  unfold pyStripL
  rw [hB]
  have hrev : (('⚠' : Char) :: "️ Forecast uncertain".data).reverse =
      'n' :: ("⚠️ Forecast uncertai".data).reverse := by decide
  rw [List.reverse_append, hrev]
  have hn : isWS 'n' = false := by decide
  rw [show ('n' :: ("⚠️ Forecast uncertai".data).reverse) ++ B.reverse =
      'n' :: (("⚠️ Forecast uncertai".data).reverse ++ B.reverse) from rfl]
  rw [List.dropWhile_cons, hn]
  simp only [Bool.false_eq_true, if_false, List.reverse_cons, List.reverse_append,
    List.reverse_reverse, List.append_assoc]
  refine ⟨B, [], ?_⟩
  simp only [List.append_nil, List.append_assoc]
  congr 1

/-- The substring test in propositional form. -/
theorem substrIn_eq_true_iff (needle hay : String) :
    substrIn needle hay = true ↔ needle.data <:+: hay.data := by
  unfold substrIn
  exact decide_eq_true_iff

/-- C2 (amended): for every summary-builder input whose city name does
not contain the warning character, the uncertainty-flag text occurs in
the produced summary exactly when `temp_range > 3` or
`rain_range > 20`, with strict comparisons — at exactly 3.0 / 20.0 the
flag is absent. -/
theorem c2_uncertainty_flag_iff (city : String) (aT aR hT lT tr rr : ℚ)
    (hcity : '⚠' ∉ city.data) :
    substrIn uncertaintyFlagText (createSummary city aT aR hT lT tr rr) = true ↔
      (tr > 3 ∨ rr > 20) := by
  by_cases hcond : tr > 3 ∨ rr > 20
  · refine iff_of_true ?_ hcond
    rw [substrIn_eq_true_iff]
    unfold createSummary
    dsimp only
    rw [if_pos hcond]
    exact flag_infix_pyStripL _
  · refine iff_of_false ?_ hcond
    intro hsub
    have hinf : uncertaintyFlagText.data <:+:
        (createSummary city aT aR hT lT tr rr).data :=
      (substrIn_eq_true_iff _ _).mp hsub
    have hwmem : '⚠' ∈ (createSummary city aT aR hT lT tr rr).data :=
      head_mem_of_infix '⚠' ("️ Forecast uncertain".data) _ hinf
    unfold createSummary at hwmem
    dsimp only at hwmem
    rw [if_neg hcond] at hwmem
    have hmem2 := mem_of_mem_pyStripL _ _ hwmem
    simp only [List.mem_append] at hmem2
    simp [hcity, warn_notin_fmtFixed0, warn_notin_fmtFixed1,
      warn_notin_weatherToEmoji] at hmem2

/-- C2 witness: a concrete input on either side of the boundary. -/
theorem c2_uncertainty_flag_iff_witness :
    (substrIn uncertaintyFlagText (createSummary "Brussels" 20 10 25 15 5 0) = true ↔
      ((5 : ℚ) > 3 ∨ (0 : ℚ) > 20)) ∧
    (substrIn uncertaintyFlagText (createSummary "Brussels" 20 10 25 15 3 20) = true ↔
      ((3 : ℚ) > 3 ∨ (20 : ℚ) > 20)) :=
  ⟨c2_uncertainty_flag_iff "Brussels" 20 10 25 15 5 0 (by decide),
    c2_uncertainty_flag_iff "Brussels" 20 10 25 15 3 20 (by decide)⟩

/-- C2 counterexample to the unrestricted claim: a city name that
itself contains the flag text makes the flag present in the summary
although both ranges are zero, so "for every input" fails as stated. -/
theorem c2_counterexample_city_contains_flag :
    substrIn uncertaintyFlagText
      (createSummary "⚠️ Forecast uncertain" 0 0 0 0 0 0) = true ∧
    ¬ ((0 : ℚ) > 3 ∨ (0 : ℚ) > 20) := by
  constructor
  · unfold createSummary
    dsimp only
    rw [if_neg (by norm_num : ¬ ((0 : ℚ) > 3 ∨ (0 : ℚ) > 20))]
    rw [if_neg (by norm_num : ¬ ((0 : ℚ) > 30))]
    rw [if_neg (by norm_num : ¬ ((0 : ℚ) > 5))]
    simp only [show fmtFixed1 (0 : ℚ) = ['0', '.', '0'] from by
        norm_num [fmtFixed1, natChars, natCharsAux, digitChar],
      show fmtFixed0 (0 : ℚ) = ['0'] from by
        norm_num [fmtFixed0, natChars, natCharsAux, digitChar]]
    decide
  · norm_num

/-! ### C5: the interpolation of `get_openweather_forecast` against the
spec's description -/

/-- Modelled from the spec: the point with the greatest timestamp
(with a default for the empty list). -/
def timeMaxD : List Sample → Sample → Sample
  | [], d => d
  | x :: xs, _ => xs.foldl (fun a b => if a.t < b.t then b else a) x

/-- Modelled from the spec: the point with the least timestamp. -/
def timeMinD : List Sample → Sample → Sample
  | [], d => d
  | x :: xs, _ => xs.foldl (fun a b => if b.t < a.t then b else a) x

/-- Modelled from the spec: values at target hours not directly present
are produced by linear time-weighted interpolation between the nearest
earlier and nearest later returned points, using the source's own
earliest/latest point's value unchanged when the target hour is out of
its range. -/
def specInterpolateAt (points : List Sample) (h : ℕ) : ℚ × ℚ :=
  let T : ℚ := (h : ℚ)
  let earliest := timeMinD points (headP points)
  let latest := timeMaxD points (headP points)
  if T < earliest.t then (earliest.temp, earliest.rain)
  else if latest.t < T then (latest.temp, latest.rain)
  else
    let nearestBefore := timeMaxD (points.filter (fun p => decide (p.t ≤ T))) (headP points)
    let nearestAfter := timeMinD (points.filter (fun p => decide (T ≤ p.t))) (headP points)
    let ratio := (T - nearestBefore.t) / (nearestAfter.t - nearestBefore.t)
    (nearestBefore.temp + (nearestAfter.temp - nearestBefore.temp) * ratio,
      nearestBefore.rain + (nearestAfter.rain - nearestBefore.rain) * ratio)

/-- A strictly earlier point is lexicographically smaller. -/
theorem ltLex_of_t_lt (p q : Sample) (h : p.t < q.t) : ltLex p q = true := by
  unfold ltLex
  exact decide_eq_true (Or.inl h)

/-- A strictly later point is not lexicographically smaller. -/
theorem ltLex_false_of_t_gt (p q : Sample) (h : q.t < p.t) : ltLex p q = false := by
  unfold ltLex
  apply decide_eq_false
  rintro (hlt | ⟨he, _⟩)
  · exact lt_asymm h hlt
  · exact (ne_of_gt h) he

/-- Folding the Python `max` step over a strictly increasing tail
starting from a strictly smaller seed reaches the last element. -/
theorem foldl_lexmax_sorted (xs : List Sample) (a : Sample)
    (ha : ∀ y ∈ xs, a.t < y.t) (hs : xs.Pairwise (fun p q => p.t < q.t)) :
    xs.foldl (fun a b => if ltLex a b then b else a) a = xs.getLastD a := by
  induction xs generalizing a with
  | nil => rfl
  | cons y ys ih =>
    rw [List.foldl_cons, List.getLastD_cons]
    rw [ltLex_of_t_lt a y (ha y (List.mem_cons_self y _))]
    simp only [if_true]
    exact ih y (fun z hz => (List.pairwise_cons.mp hs).1 z hz) (List.pairwise_cons.mp hs).2

/-- Folding the Python `min` step over a strictly increasing tail
starting from a strictly smaller seed keeps the seed. -/
theorem foldl_lexmin_sorted (xs : List Sample) (a : Sample)
    (ha : ∀ y ∈ xs, a.t < y.t) :
    xs.foldl (fun a b => if ltLex b a then b else a) a = a := by
  induction xs with
  | nil => rfl
  | cons y ys ih =>
    rw [List.foldl_cons]
    rw [ltLex_false_of_t_gt y a (ha y (List.mem_cons_self y _))]
    simp only [Bool.false_eq_true, if_false]
    exact ih (fun z hz => ha z (List.mem_cons_of_mem y hz))

/-- The spec's time-`max` fold over a strictly increasing tail reaches
the last element. -/
theorem foldl_timemax_sorted (xs : List Sample) (a : Sample)
    (ha : ∀ y ∈ xs, a.t < y.t) (hs : xs.Pairwise (fun p q => p.t < q.t)) :
    xs.foldl (fun a b => if a.t < b.t then b else a) a = xs.getLastD a := by
  induction xs generalizing a with
  | nil => rfl
  | cons y ys ih =>
    rw [List.foldl_cons, List.getLastD_cons]
    rw [if_pos (ha y (List.mem_cons_self y _))]
    exact ih y (fun z hz => (List.pairwise_cons.mp hs).1 z hz) (List.pairwise_cons.mp hs).2

/-- The spec's time-`min` fold over a strictly increasing tail keeps
the seed. -/
theorem foldl_timemin_sorted (xs : List Sample) (a : Sample)
    (ha : ∀ y ∈ xs, a.t < y.t) :
    xs.foldl (fun a b => if b.t < a.t then b else a) a = a := by
  induction xs with
  | nil => rfl
  | cons y ys ih =>
    rw [List.foldl_cons]
    rw [if_neg (lt_asymm (ha y (List.mem_cons_self y _)))]
    exact ih (fun z hz => ha z (List.mem_cons_of_mem y hz))

/-- On a sorted non-empty list the Python `max` is the last element. -/
theorem pyMaxD_sorted (x : Sample) (xs : List Sample) (d : Sample)
    (hs : (x :: xs).Pairwise (fun p q => p.t < q.t)) :
    pyMaxD (x :: xs) d = lastP (x :: xs) := by
  unfold pyMaxD lastP
  rw [List.getLastD_cons]
  exact foldl_lexmax_sorted xs x (List.pairwise_cons.mp hs).1 (List.pairwise_cons.mp hs).2

/-- On a sorted non-empty list the Python `min` is the first element. -/
theorem pyMinD_sorted (x : Sample) (xs : List Sample) (d : Sample)
    (hs : (x :: xs).Pairwise (fun p q => p.t < q.t)) :
    pyMinD (x :: xs) d = x := by
  unfold pyMinD
  exact foldl_lexmin_sorted xs x (List.pairwise_cons.mp hs).1

/-- On a sorted non-empty list the spec's time-max is the last
element. -/
theorem timeMaxD_sorted (x : Sample) (xs : List Sample) (d : Sample)
    (hs : (x :: xs).Pairwise (fun p q => p.t < q.t)) :
    timeMaxD (x :: xs) d = lastP (x :: xs) := by
  unfold timeMaxD lastP
  rw [List.getLastD_cons]
  exact foldl_timemax_sorted xs x (List.pairwise_cons.mp hs).1 (List.pairwise_cons.mp hs).2

/-- On a sorted non-empty list the spec's time-min is the first
element. -/
theorem timeMinD_sorted (x : Sample) (xs : List Sample) (d : Sample)
    (hs : (x :: xs).Pairwise (fun p q => p.t < q.t)) :
    timeMinD (x :: xs) d = x := by
  unfold timeMinD
  exact foldl_timemin_sorted xs x (List.pairwise_cons.mp hs).1

/-- `getLastD` drops the head on a two-or-more-element list. -/
theorem lastP_cons_cons (x y : Sample) (ys : List Sample) :
    lastP (x :: y :: ys) = lastP (y :: ys) := by
  unfold lastP
  simp only [List.getLastD_cons]

/-- The last element of a non-empty list is a member. -/
theorem lastP_mem (l : List Sample) (h : l ≠ []) : lastP l ∈ l := by
  induction l with
  | nil => exact absurd rfl h
  | cons x xs ih =>
    cases hxs : xs with
    | nil => simp [lastP]
    | cons y ys =>
      subst hxs
      rw [lastP_cons_cons]
      exact List.mem_cons_of_mem x (ih (by simp))

/-- In a sorted non-empty list every element's time is bounded by the
last element's time. -/
theorem t_le_lastP (l : List Sample) (hs : l.Pairwise (fun p q => p.t < q.t)) :
    ∀ p ∈ l, p.t ≤ (lastP l).t := by
  induction l with
  | nil => intro p hp; cases hp
  | cons x xs ih =>
    intro p hp
    cases hxs : xs with
    | nil =>
      subst hxs
      simp at hp
      subst hp
      simp [lastP]
    | cons y ys =>
      subst hxs
      rw [lastP_cons_cons]
      rcases List.mem_cons.mp hp with rfl | hpm
      · have hlm : lastP (y :: ys) ∈ y :: ys := lastP_mem _ (by simp)
        exact le_of_lt ((List.pairwise_cons.mp hs).1 _ hlm)
      · exact ih (List.pairwise_cons.mp hs).2 p hpm

/-- In a sorted list the head's time bounds every element's time. -/
theorem headP_t_le (x : Sample) (xs : List Sample)
    (hs : (x :: xs).Pairwise (fun p q => p.t < q.t)) :
    ∀ p ∈ x :: xs, x.t ≤ p.t := by
  intro p hp
  rcases List.mem_cons.mp hp with rfl | hpm
  · exact le_refl _
  · exact le_of_lt ((List.pairwise_cons.mp hs).1 p hpm)

/-- C5: for a non-empty chronologically ordered 3-hour point series and
a target hour with no direct hour match, the fetcher's loop body
produces exactly the spec's value: linear time-weighted interpolation
between the nearest earlier and nearest later points, and the
boundary point's own value unchanged when the target hour lies before
the earliest or after the latest point. -/
theorem c5_interpolation (points : List Sample) (h : ℕ)
    (hne : points ≠ [])
    (hsorted : points.Pairwise (fun p q => p.t < q.t))
    (hhour : h ∈ targetHours)
    (hmatch : ∀ p ∈ points, pyHour p ≠ (h : ℤ)) :
    (interpolateAt points h).t = (h : ℚ) ∧
    (interpolateAt points h).temp = (specInterpolateAt points h).1 ∧
    (interpolateAt points h).rain = (specInterpolateAt points h).2 := by
  obtain ⟨x, xs, rfl⟩ : ∃ x xs, points = x :: xs := by
    cases points with
    | nil => exact absurd rfl hne
    | cons x xs => exact ⟨x, xs, rfl⟩
  refine ⟨interpolateAt_t _ _, ?_⟩
  have hfind : (x :: xs).find? (fun p => pyHour p == (h : ℤ)) = none := by
    rw [List.find?_eq_none]
    intro p hp
    simp only [beq_iff_eq]
    exact hmatch p hp
  have hTne : ∀ p ∈ x :: xs, p.t ≠ (h : ℚ) := by
    intro p hp hEq
    apply hmatch p hp
    rw [pyHour, hEq]
    exact Int.floor_natCast h
  unfold interpolateAt specInterpolateAt
  rw [hfind]
  dsimp only
  rw [timeMinD_sorted x xs _ hsorted]
  by_cases hA : (h : ℚ) < x.t
  · have hfle : (x :: xs).filter (fun p => decide (p.t ≤ (h : ℚ))) = [] := by
      rw [List.filter_eq_nil_iff]
      intro p hp
      simp only [decide_eq_true_eq, not_le]
      exact lt_of_lt_of_le hA (headP_t_le x xs hsorted p hp)
    have hfge : (x :: xs).filter (fun p => decide ((h : ℚ) ≤ p.t)) = x :: xs :=
      List.filter_eq_self.mpr fun p hp =>
        decide_eq_true (le_trans (le_of_lt hA) (headP_t_le x xs hsorted p hp))
    rw [hfle, hfge]
    rw [show pyMaxD [] (headP (x :: xs)) = x from rfl]
    rw [pyMinD_sorted x xs _ hsorted]
    rw [if_pos rfl, if_pos hA]
    exact ⟨rfl, rfl⟩
  · rw [timeMaxD_sorted x xs _ hsorted]
    by_cases hB : (lastP (x :: xs)).t < (h : ℚ)
    · have hfge : (x :: xs).filter (fun p => decide ((h : ℚ) ≤ p.t)) = [] := by
        rw [List.filter_eq_nil_iff]
        intro p hp
        simp only [decide_eq_true_eq, not_le]
        exact lt_of_le_of_lt (t_le_lastP _ hsorted p hp) hB
      have hfle : (x :: xs).filter (fun p => decide (p.t ≤ (h : ℚ))) = x :: xs :=
        List.filter_eq_self.mpr fun p hp =>
          decide_eq_true (le_trans (t_le_lastP _ hsorted p hp) (le_of_lt hB))
      rw [hfle, hfge]
      rw [show pyMinD [] (lastP (x :: xs)) = lastP (x :: xs) from rfl]
      rw [pyMaxD_sorted x xs _ hsorted]
      rw [if_pos rfl, if_neg hA, if_pos hB]
      exact ⟨rfl, rfl⟩
    · have hxlt : x.t < (h : ℚ) :=
        lt_of_le_of_ne (not_lt.mp hA) (hTne x (List.mem_cons_self x xs))
      have hllt : (h : ℚ) < (lastP (x :: xs)).t :=
        lt_of_le_of_ne (not_lt.mp hB)
          (fun hEq => hTne _ (lastP_mem _ (by simp)) hEq.symm)
      have hxmem : x ∈ (x :: xs).filter (fun p => decide (p.t ≤ (h : ℚ))) :=
        List.mem_filter.mpr ⟨List.mem_cons_self x xs, decide_eq_true (le_of_lt hxlt)⟩
      have hlmem : lastP (x :: xs) ∈ (x :: xs).filter (fun p => decide ((h : ℚ) ≤ p.t)) :=
        List.mem_filter.mpr ⟨lastP_mem _ (by simp), decide_eq_true (le_of_lt hllt)⟩
      obtain ⟨y, ys, hle⟩ : ∃ y ys,
          (x :: xs).filter (fun p => decide (p.t ≤ (h : ℚ))) = y :: ys := by
        cases hc : (x :: xs).filter (fun p => decide (p.t ≤ (h : ℚ))) with
        | nil => rw [hc] at hxmem; cases hxmem
        | cons y ys => exact ⟨y, ys, rfl⟩
      obtain ⟨z, zs, hge⟩ : ∃ z zs,
          (x :: xs).filter (fun p => decide ((h : ℚ) ≤ p.t)) = z :: zs := by
        cases hc : (x :: xs).filter (fun p => decide ((h : ℚ) ≤ p.t)) with
        | nil => rw [hc] at hlmem; cases hlmem
        | cons z zs => exact ⟨z, zs, rfl⟩
      have hsle : (y :: ys).Pairwise (fun p q => p.t < q.t) :=
        hle ▸ hsorted.sublist (List.filter_sublist _)
      have hsge : (z :: zs).Pairwise (fun p q => p.t < q.t) :=
        hge ▸ hsorted.sublist (List.filter_sublist _)
      have hbmem : lastP (y :: ys) ∈ (x :: xs).filter (fun p => decide (p.t ≤ (h : ℚ))) :=
        hle ▸ lastP_mem (y :: ys) (by simp)
      have hbt : (lastP (y :: ys)).t < (h : ℚ) :=
        lt_of_le_of_ne
          (of_decide_eq_true (List.mem_filter.mp hbmem).2)
          (hTne _ (List.mem_of_mem_filter hbmem))
      have hzmem : z ∈ (x :: xs).filter (fun p => decide ((h : ℚ) ≤ p.t)) :=
        hge ▸ List.mem_cons_self z zs
      have hzt : (h : ℚ) < z.t :=
        lt_of_le_of_ne
          (of_decide_eq_true (List.mem_filter.mp hzmem).2)
          (fun hEq => hTne _ (List.mem_of_mem_filter hzmem) hEq.symm)
      have hbz : lastP (y :: ys) ≠ z := fun hEq => by
        rw [hEq] at hbt
        exact lt_asymm hbt hzt
      rw [hle, hge]
      rw [pyMaxD_sorted y ys _ hsle, pyMinD_sorted z zs _ hsge]
      rw [timeMaxD_sorted y ys _ hsle, timeMinD_sorted z zs _ hsge]
      rw [if_neg hbz, if_neg hA, if_neg hB]
      exact ⟨rfl, rfl⟩

/-- C5 witness: target hour 12 between points at 10:00 and 13:00. -/
theorem c5_interpolation_witness :
    (interpolateAt [⟨10, 20, 0⟩, ⟨13, 26, 30⟩] 12).t = ((12 : ℕ) : ℚ) ∧
    (interpolateAt [⟨10, 20, 0⟩, ⟨13, 26, 30⟩] 12).temp =
      (specInterpolateAt [⟨10, 20, 0⟩, ⟨13, 26, 30⟩] 12).1 ∧
    (interpolateAt [⟨10, 20, 0⟩, ⟨13, 26, 30⟩] 12).rain =
      (specInterpolateAt [⟨10, 20, 0⟩, ⟨13, 26, 30⟩] 12).2 :=
  c5_interpolation [⟨10, 20, 0⟩, ⟨13, 26, 30⟩] 12 (by simp)
    (by norm_num [List.pairwise_cons])
    (by simp [targetHours])
    (by
      intro p hp
      simp at hp
      rcases hp with rfl | rfl <;> norm_num [pyHour])

end WeatherBot
